import Mathlib

/-!
Shallow embedding of the `ab_testing` notebook (qichaozhao/ab_testing).

Python floats are modelled as rationals `ℚ`.  The external statistical
primitives supplied by scipy and `math` (`st.norm.ppf`, `math.sqrt`'s
numeric part, the chi-square distribution maps) are opaque collaborators,
so every definition is parametrised over them as plain functions `ℚ → ℚ`;
the structure surrounding them is translated from the notebook code.
Python's run-time failures (raised exceptions) are modelled with `Except`:
`ZeroDivisionError` for float division by zero, `ValueError` (math domain
error) for `math.sqrt` of a negative number, `TypeError` for arithmetic on
`None`, and the two explicit `raise Exception(...)` statements of
`get_sample_estimate`.
-/

/-- The kinds of run-time failure the notebook code can raise. -/
inductive PyError where
  /-- `raise Exception("tail can only be 1 or 2")` -/
  | invalidTail : PyError
  /-- `raise Exception("var_type can only be binomial or continuous")` -/
  | invalidVarType : PyError
  /-- `TypeError`: arithmetic on `None` (e.g. `mde/sigma1` with `sigma1=None`) -/
  | typeError : PyError
  /-- `ZeroDivisionError`: Python float division by zero raises -/
  | zeroDivision : PyError
  /-- `ValueError: math domain error`: `math.sqrt` of a negative number -/
  | mathDomain : PyError
deriving DecidableEq

/-- Python's `/` on numbers: raises `ZeroDivisionError` when the divisor is 0. -/
def pydiv (a b : ℚ) : Except PyError ℚ :=
  if b = 0 then .error .zeroDivision else .ok (a / b)

/-- Python's `math.sqrt`, parametrised over the numeric square-root primitive
`sqrtf`: raises `ValueError` (math domain error) on a negative argument. -/
def pysqrt (sqrtf : ℚ → ℚ) (x : ℚ) : Except PyError ℚ :=
  if x < 0 then .error .mathDomain else .ok (sqrtf x)

/-- First stanza of `get_sample_estimate`: `z_alpha` from `sig` and `tail`,
`st.norm.ppf` abstracted as `ppf`.
```
if tail == 1:   z_alpha = st.norm.ppf(1 - sig)
elif tail == 2: z_alpha = st.norm.ppf(1 - sig/2)
else:           raise Exception("tail can only be 1 or 2")
``` -/
def calc_z_alpha (ppf : ℚ → ℚ) (sig : ℚ) (tail : ℤ) : Except PyError ℚ :=
  if tail = 1 then .ok (ppf (1 - sig))
  else if tail = 2 then .ok (ppf (1 - sig / 2))
  else .error .invalidTail

/-- `get_sample_estimate(sig, power, mde, p1, sigma1=None, var_type='binomial',
tail=1)` from the notebook, with `st.norm.ppf` abstracted as `ppf` and
`math.sqrt`'s numeric part abstracted as `sqrtf`.  The body after the
`z_alpha` stanza is
```
z_beta = st.norm.ppf(power)
p2 = p1 + mde
if var_type == 'binomial':
    n = ((z_alpha*math.sqrt(p1*(1-p1)) + z_beta*math.sqrt(p2*(1-p2))) / mde)**2
elif var_type == 'continuous':
    n = ((z_alpha + z_beta) / (mde/sigma1))**2
else:
    raise Exception("var_type can only be binomial or continuous")
return n
```
evaluated with Python's exception semantics (left-to-right, fail fast). -/
def get_sample_estimate (ppf sqrtf : ℚ → ℚ) (sig power mde p1 : ℚ)
    (sigma1 : Option ℚ) (var_type : String) (tail : ℤ) : Except PyError ℚ :=
  match calc_z_alpha ppf sig tail with
  | .error e => .error e
  | .ok z_alpha =>
    let z_beta := ppf power
    let p2 := p1 + mde
    if var_type = "binomial" then
      match pysqrt sqrtf (p1 * (1 - p1)) with
      | .error e => .error e
      | .ok s1 =>
        match pysqrt sqrtf (p2 * (1 - p2)) with
        | .error e => .error e
        | .ok s2 =>
          match pydiv (z_alpha * s1 + z_beta * s2) mde with
          | .error e => .error e
          | .ok q => .ok (q ^ 2)
    else if var_type = "continuous" then
      match sigma1 with
      | none => .error .typeError
      | some s =>
        match pydiv mde s with
        | .error e => .error e
        | .ok r =>
          match pydiv (z_alpha + z_beta) r with
          | .error e => .error e
          | .ok q => .ok (q ^ 2)
    else .error .invalidVarType

/-- `def draw_sample(p): return 1 if random.uniform(0, 1.0) <= p else 0`,
with the drawn uniform value `u` made explicit. -/
def draw_sample (p u : ℚ) : ℕ :=
  if u ≤ p then 1 else 0

/-- `draw_samples(p, n)` from the notebook; the random source is modelled as
the stream `rand : ℕ → ℚ` of values returned by the successive calls to
`random.uniform(0, 1.0)`.
```
o = []
for i in range(0, n):
    o.append(draw_sample(p))
return o
``` -/
def draw_samples (rand : ℕ → ℚ) (p : ℚ) (n : ℕ) : List ℕ :=
  (List.range n).foldl (fun o i => o ++ [draw_sample p (rand i)]) []

/-- `len(list(filter(lambda v: v == x, g)))`: the count of occurrences of `x`
in an outcome sequence. -/
def count_eq (x : ℕ) (g : List ℕ) : ℕ :=
  (g.filter (fun v => v = x)).length

/-- Modelled from the spec: the chi-square statistic computed by the external
library routine `st.chisquare`, whose source is not part of this repository.
Per the spec it is `Σ (fObs_i - fExp_i)^2 / fExp_i` over the categories,
failing with a division-by-zero error when an expected-category count is
zero. -/
def chisq_stat : List ℕ → List ℕ → Except PyError ℚ
  | o :: os, e :: es =>
    match pydiv (((o : ℚ) - (e : ℚ)) ^ 2) (e : ℚ) with
    | .error err => .error err
    | .ok t =>
      match chisq_stat os es with
      | .error err => .error err
      | .ok s => .ok (t + s)
  | _, _ => .ok 0

/-- Modelled from the spec: `st.chisquare(f_obs, f_exp)` returns the pair
(statistic, p-value), the p-value obtained from the chi-square distribution
with one degree of freedom; that distribution map is abstracted as the
function `sf : ℚ → ℚ` applied to the statistic. -/
def chisquare (sf : ℚ → ℚ) (f_obs f_exp : List ℕ) : Except PyError (ℚ × ℚ) :=
  match chisq_stat f_obs f_exp with
  | .error err => .error err
  | .ok s => .ok (s, sf s)

/-- The significance-test cell of the notebook:
```
f_obs = [len(list(filter(lambda v: v == 0, test_group))),
         len(list(filter(lambda v: v == 1, test_group)))]
f_exp = [len(list(filter(lambda v: v == 0, control_group))),
         len(list(filter(lambda v: v == 1, control_group)))]
st.chisquare(f_obs, f_exp)
``` -/
def significance_test (sf : ℚ → ℚ) (test_group control_group : List ℕ) :
    Except PyError (ℚ × ℚ) :=
  chisquare sf
    [count_eq 0 test_group, count_eq 1 test_group]
    [count_eq 0 control_group, count_eq 1 control_group]

/-- The power-estimation cell of the notebook, with the chi-square CDF with
one degree of freedom (`st.chi2.cdf(·, 1)`) abstracted as `cdf`.  The sample
size multiplier is the literal `5000` exactly as in the source (which in the
notebook's run equals the length of each group):
```
r_int = []
for i in (0, 1):
    o = len(list(filter(lambda v: v == i, test_group)))
    e = len(list(filter(lambda v: v == i, control_group)))
    r_int.append((o - e)**2 / e)
st.chi2.cdf(sum(r_int) * 5000, 1)
``` -/
def estimatePower (cdf : ℚ → ℚ) (test_group control_group : List ℕ) :
    Except PyError ℚ :=
  match pydiv (((count_eq 0 test_group : ℚ) - (count_eq 0 control_group : ℚ)) ^ 2)
      (count_eq 0 control_group : ℚ) with
  | .error err => .error err
  | .ok r0 =>
    match pydiv (((count_eq 1 test_group : ℚ) - (count_eq 1 control_group : ℚ)) ^ 2)
        (count_eq 1 control_group : ℚ) with
    | .error err => .error err
    | .ok r1 => .ok (cdf ((r0 + r1) * (5000 : ℚ)))

/-- `true` exactly when the computation raised, so no result was returned. -/
def isFailure {α : Type} : Except PyError α → Bool
  | .error _ => true
  | .ok _ => false

/-! ## Helper lemmas -/

lemma foldl_snoc_eq_map (g : ℕ → ℕ) :
    ∀ (l : List ℕ) (acc : List ℕ),
      l.foldl (fun o i => o ++ [g i]) acc = acc ++ l.map g := by
  intro l
  induction l with
  | nil => intro acc; simp
  | cons a t ih => intro acc; simp [List.foldl_cons, ih]

lemma draw_samples_eq_map (rand : ℕ → ℚ) (p : ℚ) (n : ℕ) :
    draw_samples rand p n = (List.range n).map (fun i => draw_sample p (rand i)) := by
  simpa [draw_samples] using
    foldl_snoc_eq_map (fun i => draw_sample p (rand i)) (List.range n) []

lemma significance_test_ok (sf : ℚ → ℚ) (tg cg : List ℕ)
    (h0 : count_eq 0 cg ≠ 0) (h1 : count_eq 1 cg ≠ 0) :
    significance_test sf tg cg =
      .ok (((count_eq 0 tg : ℚ) - (count_eq 0 cg : ℚ)) ^ 2 / (count_eq 0 cg : ℚ) +
             ((count_eq 1 tg : ℚ) - (count_eq 1 cg : ℚ)) ^ 2 / (count_eq 1 cg : ℚ),
           sf (((count_eq 0 tg : ℚ) - (count_eq 0 cg : ℚ)) ^ 2 / (count_eq 0 cg : ℚ) +
               ((count_eq 1 tg : ℚ) - (count_eq 1 cg : ℚ)) ^ 2 / (count_eq 1 cg : ℚ))) := by
  have hc0 : ((count_eq 0 cg : ℚ)) ≠ 0 := Nat.cast_ne_zero.2 h0
  have hc1 : ((count_eq 1 cg : ℚ)) ≠ 0 := Nat.cast_ne_zero.2 h1
  simp [significance_test, chisquare, chisq_stat, pydiv, hc0, hc1]

lemma estimatePower_ok (cdf : ℚ → ℚ) (tg cg : List ℕ)
    (h0 : count_eq 0 cg ≠ 0) (h1 : count_eq 1 cg ≠ 0) :
    estimatePower cdf tg cg =
      .ok (cdf ((((count_eq 0 tg : ℚ) - (count_eq 0 cg : ℚ)) ^ 2 / (count_eq 0 cg : ℚ) +
                 ((count_eq 1 tg : ℚ) - (count_eq 1 cg : ℚ)) ^ 2 / (count_eq 1 cg : ℚ)) *
                (5000 : ℚ))) := by
  have hc0 : ((count_eq 0 cg : ℚ)) ≠ 0 := Nat.cast_ne_zero.2 h0
  have hc1 : ((count_eq 1 cg : ℚ)) ≠ 0 := Nat.cast_ne_zero.2 h1
  simp [estimatePower, pydiv, hc0, hc1]

/-! ## Claims -/

/-- Claim C4: for every `p` in `[0,1]` and every `n ≥ 0`, `draw_samples p n`
returns a sequence of exactly `n` values, the `i`-th being `1` if the `i`-th
uniform draw is `≤ p` (boundary inclusive on the success side) and `0`
otherwise; `n = 0` yields the empty sequence. -/
theorem claim_C4 (rand : ℕ → ℚ) (p : ℚ) (n : ℕ) (hp : 0 ≤ p ∧ p ≤ 1) :
    (draw_samples rand p n).length = n ∧
    (∀ i, i < n →
      (draw_samples rand p n)[i]? = some (if rand i ≤ p then 1 else 0)) ∧
    draw_samples rand p 0 = [] := by
  refine ⟨?_, ?_, rfl⟩
  · rw [draw_samples_eq_map]; simp
  · intro i hi
    rw [draw_samples_eq_map]
    simp [List.getElem?_range hi, draw_sample]

/-- Claim C4, witnessed at `p = 1/2`, `n = 3`. -/
theorem claim_C4_witness :
    (draw_samples (fun _ => mkRat 1 3) (mkRat 1 2) 3).length = 3 ∧
    (∀ i, i < 3 →
      (draw_samples (fun _ => mkRat 1 3) (mkRat 1 2) 3)[i]? =
        some (if mkRat 1 3 ≤ mkRat 1 2 then 1 else 0)) ∧
    draw_samples (fun _ => mkRat 1 3) (mkRat 1 2) 0 = [] :=
  claim_C4 (fun _ => mkRat 1 3) (mkRat 1 2) 3 ⟨by decide, by decide⟩

/-- Claim C5 fails as stated: the random source draws uniformly from `[0,1)`,
whose values include `0`, and the boundary-inclusive comparison `u <= p` then
makes `draw_samples 0 n` output a `1`: with the draw `u = 0` (a legal value,
`0 ≤ u < 1`), `draw_samples 0 1 = [1]`, not `[0]`. -/
theorem claim_C5_counterexample :
    (0 : ℚ) ≤ 0 ∧ (0 : ℚ) < 1 ∧ draw_samples (fun _ => (0 : ℚ)) 0 1 = [1] := by
  refine ⟨le_refl 0, by decide, ?_⟩
  rw [draw_samples_eq_map]
  simp [draw_sample]

/-- Claim C5 as amended: for every random-source sequence with values `≤ 1`
(in particular every sequence of draws from `[0,1)`, a draw of `0` included),
`draw_samples 1 n` is `n` ones; and `draw_samples 0 n` is `n` zeros provided
every drawn value is strictly positive (a draw of exactly `0` instead
produces a `1`). -/
theorem claim_C5 (rand : ℕ → ℚ) (n : ℕ) (hle : ∀ i, rand i ≤ 1) :
    draw_samples rand 1 n = List.replicate n 1 ∧
    ((∀ i, 0 < rand i) → draw_samples rand 0 n = List.replicate n 0) := by
  constructor
  · rw [draw_samples_eq_map, List.eq_replicate_iff]
    refine ⟨by simp, ?_⟩
    intro b hb
    rw [List.mem_map] at hb
    obtain ⟨i, -, rfl⟩ := hb
    simp [draw_sample, hle i]
  · intro hpos
    rw [draw_samples_eq_map, List.eq_replicate_iff]
    refine ⟨by simp, ?_⟩
    intro b hb
    rw [List.mem_map] at hb
    obtain ⟨i, -, rfl⟩ := hb
    simp [draw_sample, (hpos i).not_le]

/-- Claim C5 (amended), witnessed at `n = 3`: the ones half at a source all
of whose draws are exactly `0`, the zeros half at a source drawing `1/2`. -/
theorem claim_C5_witness :
    draw_samples (fun _ => (0 : ℚ)) 1 3 = List.replicate 3 1 ∧
    draw_samples (fun _ => mkRat 1 2) 0 3 = List.replicate 3 0 :=
  ⟨(claim_C5 (fun _ => (0 : ℚ)) 3 (fun _ => by show (0 : ℚ) ≤ 1; decide)).1,
   (claim_C5 (fun _ => mkRat 1 2) 3 (fun _ => by show mkRat 1 2 ≤ (1 : ℚ); decide)).2
     (fun _ => by show (0 : ℚ) < mkRat 1 2; decide)⟩

/-- Claim C10: in the continuous branch the result does not depend on `p1`
(the intermediate `p2 = p1 + mde` is computed but never used there). -/
theorem claim_C10 (ppf sqrtf : ℚ → ℚ) (sig power mde p1 p1' s : ℚ) (tail : ℤ) :
    get_sample_estimate ppf sqrtf sig power mde p1 (some s) "continuous" tail =
      get_sample_estimate ppf sqrtf sig power mde p1' (some s) "continuous" tail := by
  unfold get_sample_estimate
  cases calc_z_alpha ppf sig tail <;> simp

/-- Claim C9: the z-quantile for `tail = 2` at significance `sig` equals the
z-quantile for `tail = 1` at significance `sig/2`, and hence, all other
arguments fixed, the two full estimates coincide. -/
theorem claim_C9 (ppf sqrtf : ℚ → ℚ) (sig power mde p1 : ℚ)
    (sigma1 : Option ℚ) (var_type : String) (hsig : 0 < sig ∧ sig < 1) :
    calc_z_alpha ppf sig 2 = calc_z_alpha ppf (sig / 2) 1 ∧
    get_sample_estimate ppf sqrtf sig power mde p1 sigma1 var_type 2 =
      get_sample_estimate ppf sqrtf (sig / 2) power mde p1 sigma1 var_type 1 := by
  have hz : calc_z_alpha ppf sig 2 = calc_z_alpha ppf (sig / 2) 1 := by
    simp [calc_z_alpha]
  exact ⟨hz, by unfold get_sample_estimate; rw [hz]⟩

/-- Claim C9, witnessed at `sig = 1/2` (binomial defaults). -/
theorem claim_C9_witness :
    calc_z_alpha id (mkRat 1 2) 2 = calc_z_alpha id (mkRat 1 2 / 2) 1 ∧
    get_sample_estimate id id (mkRat 1 2) (mkRat 1 2) 1 0 none "binomial" 2 =
      get_sample_estimate id id (mkRat 1 2 / 2) (mkRat 1 2) 1 0 none "binomial" 1 :=
  claim_C9 id id (mkRat 1 2) (mkRat 1 2) 1 0 none "binomial" ⟨by decide, by decide⟩

lemma get_sample_estimate_failure_z (ppf sqrtf : ℚ → ℚ) (sig power mde p1 : ℚ)
    (sigma1 : Option ℚ) (var_type : String) (tail : ℤ) (z : ℚ)
    (hz : calc_z_alpha ppf sig tail = .ok z)
    (hmde : mde ≠ 0) (hp1 : 0 ≤ p1 * (1 - p1))
    (hp2 : 0 ≤ (p1 + mde) * (1 - (p1 + mde))) (hsigma : sigma1 ≠ some 0) :
    isFailure (get_sample_estimate ppf sqrtf sig power mde p1 sigma1 var_type tail) = true ↔
      ((var_type ≠ "binomial" ∧ var_type ≠ "continuous") ∨
       (var_type = "continuous" ∧ sigma1 = none)) := by
  by_cases hb : var_type = "binomial"
  · subst hb
    simp [get_sample_estimate, hz, pysqrt, pydiv, not_lt.2 hp1, not_lt.2 hp2, hmde, isFailure]
  · by_cases hc : var_type = "continuous"
    · subst hc
      cases sigma1 with
      | none => simp [get_sample_estimate, hz, isFailure]
      | some s =>
        have hs : s ≠ 0 := fun h => hsigma (by rw [h])
        simp [get_sample_estimate, hz, pydiv, hs, div_ne_zero hmde hs, isFailure]
    · simp [get_sample_estimate, hz, isFailure, hb, hc]

/-- Claim C1 fails as stated: it asserts the binomial formula is returned for
every `p1`, but at `p1 = 2` (with `sig = power = 1/2`, `mde = 1`, `tail = 1`,
all satisfying the claim's side conditions) `math.sqrt(p1*(1-p1))` is applied
to the negative number `-2`, so the code raises a math-domain `ValueError`
and returns nothing. -/
theorem claim_C1_counterexample :
    (0 : ℚ) < 1 / 2 ∧ (1 / 2 : ℚ) < 1 ∧ (1 : ℚ) ≠ 0 ∧
    get_sample_estimate id id (1 / 2) (1 / 2) 1 2 none "binomial" 1 =
      .error .mathDomain := by
  norm_num [get_sample_estimate, calc_z_alpha, pysqrt, pydiv]

/-- Claim C1 as amended: for `sig`, `power` in `(0,1)`, `mde ≠ 0` and
`tail ∈ {1,2}`, `get_sample_estimate` computes `zAlpha = ppf (1-sig)` for
`tail = 1` and `ppf (1-sig/2)` for `tail = 2`, `zBeta = ppf power`, and
returns `((zAlpha*sqrt(p1*(1-p1)) + zBeta*sqrt(p2*(1-p2)))/mde)^2` with
`p2 = p1+mde` for `var_type = 'binomial'` — provided both square-root
arguments are nonnegative — and `((zAlpha+zBeta)/(mde/sigma1))^2` for
`var_type = 'continuous'` with `sigma1` supplied and nonzero. -/
theorem claim_C1 (ppf sqrtf : ℚ → ℚ) (sig power mde p1 s : ℚ)
    (sigma1 : Option ℚ) (tail : ℤ)
    (hsig : 0 < sig ∧ sig < 1) (hpower : 0 < power ∧ power < 1) (hmde : mde ≠ 0)
    (htail : tail = 1 ∨ tail = 2)
    (hp1 : 0 ≤ p1 * (1 - p1)) (hp2 : 0 ≤ (p1 + mde) * (1 - (p1 + mde)))
    (hs : s ≠ 0) :
    get_sample_estimate ppf sqrtf sig power mde p1 sigma1 "binomial" tail =
      .ok ((((if tail = 1 then ppf (1 - sig) else ppf (1 - sig / 2)) *
              sqrtf (p1 * (1 - p1)) +
             ppf power * sqrtf ((p1 + mde) * (1 - (p1 + mde)))) / mde) ^ 2) ∧
    get_sample_estimate ppf sqrtf sig power mde p1 (some s) "continuous" tail =
      .ok ((((if tail = 1 then ppf (1 - sig) else ppf (1 - sig / 2)) + ppf power) /
            (mde / s)) ^ 2) := by
  rcases htail with rfl | rfl <;>
    exact ⟨by simp [get_sample_estimate, calc_z_alpha, pysqrt, pydiv,
                    not_lt.2 hp1, not_lt.2 hp2, hmde],
           by simp [get_sample_estimate, calc_z_alpha, pydiv, hs,
                    div_ne_zero hmde hs]⟩

/-- Claim C1 (amended), witnessed at `sig = power = 1/2`, `mde = 1`,
`p1 = 0`, `sigma1 = 1`, `tail = 1`. -/
theorem claim_C1_witness :
    get_sample_estimate id id (mkRat 1 2) (mkRat 1 2) 1 0 none "binomial" 1 =
      .ok ((((if (1 : ℤ) = 1 then id (1 - mkRat 1 2) else id (1 - mkRat 1 2 / 2)) *
              id ((0 : ℚ) * (1 - 0)) +
             id (mkRat 1 2) * id (((0 : ℚ) + 1) * (1 - ((0 : ℚ) + 1)))) / 1) ^ 2) ∧
    get_sample_estimate id id (mkRat 1 2) (mkRat 1 2) 1 0 (some 1) "continuous" 1 =
      .ok ((((if (1 : ℤ) = 1 then id (1 - mkRat 1 2) else id (1 - mkRat 1 2 / 2)) +
             id (mkRat 1 2)) / ((1 : ℚ) / 1)) ^ 2) := by
  exact claim_C1 id id (mkRat 1 2) (mkRat 1 2) 1 0 1 none 1
    ⟨by decide, by decide⟩ ⟨by decide, by decide⟩ (by decide) (Or.inl rfl)
    (by simp) (by simp) (by decide)

/-- Claim C3 fails as stated: it asserts that `get_sample_estimate` fails
exactly when `tail` or `var_type` is invalid or `sigma1` is absent in the
continuous case, but at the valid-looking input `tail = 1`,
`var_type = 'binomial'`, `mde = 0` the division by `mde` raises
`ZeroDivisionError`, a failure outside the claimed set. -/
theorem claim_C3_counterexample :
    get_sample_estimate id id ((1 : ℚ) / 2) ((1 : ℚ) / 2) 0 0 none "binomial" 1 =
      .error .zeroDivision := by
  norm_num [get_sample_estimate, calc_z_alpha, pysqrt, pydiv]

/-- Claim C3 as amended: provided `mde ≠ 0`, both square-root arguments
`p1*(1-p1)` and `p2*(1-p2)` are nonnegative, and any supplied `sigma1` is
nonzero, `get_sample_estimate` fails exactly when `tail` is not 1 or 2, or
`var_type` is neither `'binomial'` nor `'continuous'`, or
`var_type = 'continuous'` and `sigma1` is absent; in every such case no
result is returned. -/
theorem claim_C3 (ppf sqrtf : ℚ → ℚ) (sig power mde p1 : ℚ) (sigma1 : Option ℚ)
    (var_type : String) (tail : ℤ)
    (hmde : mde ≠ 0) (hp1 : 0 ≤ p1 * (1 - p1))
    (hp2 : 0 ≤ (p1 + mde) * (1 - (p1 + mde))) (hsigma : sigma1 ≠ some 0) :
    isFailure (get_sample_estimate ppf sqrtf sig power mde p1 sigma1 var_type tail) = true ↔
      ((tail ≠ 1 ∧ tail ≠ 2) ∨
       (var_type ≠ "binomial" ∧ var_type ≠ "continuous") ∨
       (var_type = "continuous" ∧ sigma1 = none)) := by
  rcases eq_or_ne tail 1 with rfl | ht1
  · rw [get_sample_estimate_failure_z ppf sqrtf sig power mde p1 sigma1 var_type 1
      (ppf (1 - sig)) (by simp [calc_z_alpha]) hmde hp1 hp2 hsigma]
    simp
  · rcases eq_or_ne tail 2 with rfl | ht2
    · rw [get_sample_estimate_failure_z ppf sqrtf sig power mde p1 sigma1 var_type 2
        (ppf (1 - sig / 2)) (by simp [calc_z_alpha]) hmde hp1 hp2 hsigma]
      simp
    · have hz : calc_z_alpha ppf sig tail = .error .invalidTail := by
        simp [calc_z_alpha, ht1, ht2]
      simp [get_sample_estimate, hz, isFailure, ht1, ht2]

/-- Claim C3 (amended), witnessed at `var_type = 'unknown'`, `tail = 1`. -/
theorem claim_C3_witness :
    isFailure (get_sample_estimate id id (mkRat 1 2) (mkRat 1 2) 1 0 none "unknown" 1) = true ↔
      (((1 : ℤ) ≠ 1 ∧ (1 : ℤ) ≠ 2) ∨
       (("unknown" : String) ≠ "binomial" ∧ ("unknown" : String) ≠ "continuous") ∨
       (("unknown" : String) = "continuous" ∧ (none : Option ℚ) = none)) := by
  exact claim_C3 id id (mkRat 1 2) (mkRat 1 2) 1 0 none "unknown" 1
    (by decide) (by simp) (by simp) (by simp)

/-- Claim C6: for any two outcome sequences whose expected-category counts
are both nonzero, the significance test returns the statistic
`Σ (fObs_i - fExp_i)^2 / fExp_i` over the two categories together with the
p-value obtained from the chi-square distribution with one degree of freedom
(abstracted as `sf`) at that statistic. -/
theorem claim_C6 (sf : ℚ → ℚ) (tg cg : List ℕ)
    (h0 : count_eq 0 cg ≠ 0) (h1 : count_eq 1 cg ≠ 0) :
    significance_test sf tg cg =
      .ok (((count_eq 0 tg : ℚ) - (count_eq 0 cg : ℚ)) ^ 2 / (count_eq 0 cg : ℚ) +
             ((count_eq 1 tg : ℚ) - (count_eq 1 cg : ℚ)) ^ 2 / (count_eq 1 cg : ℚ),
           sf (((count_eq 0 tg : ℚ) - (count_eq 0 cg : ℚ)) ^ 2 / (count_eq 0 cg : ℚ) +
               ((count_eq 1 tg : ℚ) - (count_eq 1 cg : ℚ)) ^ 2 / (count_eq 1 cg : ℚ))) :=
  significance_test_ok sf tg cg h0 h1

/-- Claim C6, witnessed on groups `[0,0,1]` and `[0,1]` (unequal lengths). -/
theorem claim_C6_witness :
    significance_test id [0, 0, 1] [0, 1] =
      .ok (((count_eq 0 [0, 0, 1] : ℚ) - (count_eq 0 [0, 1] : ℚ)) ^ 2 / (count_eq 0 [0, 1] : ℚ) +
             ((count_eq 1 [0, 0, 1] : ℚ) - (count_eq 1 [0, 1] : ℚ)) ^ 2 / (count_eq 1 [0, 1] : ℚ),
           id (((count_eq 0 [0, 0, 1] : ℚ) - (count_eq 0 [0, 1] : ℚ)) ^ 2 / (count_eq 0 [0, 1] : ℚ) +
               ((count_eq 1 [0, 0, 1] : ℚ) - (count_eq 1 [0, 1] : ℚ)) ^ 2 / (count_eq 1 [0, 1] : ℚ))) :=
  claim_C6 id [0, 0, 1] [0, 1] (by decide) (by decide)

/-- Claim C2 fails as stated: the notebook multiplies the summed relative
deviations by the literal `5000`, not by the length of the observed group.
On the observed group `[0,1,1]` (length 3) against the expected group
`[0,1]` (both category counts nonzero), with the distribution map `id`, the
code yields `(0 + 1) * 5000 = 5000`, whereas the claim's
`lambda = n * Σ r_i` with `n = 3` is `3`. -/
theorem claim_C2_counterexample :
    count_eq 0 [0, 1] ≠ 0 ∧ count_eq 1 [0, 1] ≠ 0 ∧
    estimatePower id [0, 1, 1] [0, 1] = .ok 5000 ∧
    (5000 : ℚ) ≠ (([0, 1, 1] : List ℕ).length : ℚ) *
      (((count_eq 0 [0, 1, 1] : ℚ) - (count_eq 0 [0, 1] : ℚ)) ^ 2 / (count_eq 0 [0, 1] : ℚ) +
       ((count_eq 1 [0, 1, 1] : ℚ) - (count_eq 1 [0, 1] : ℚ)) ^ 2 / (count_eq 1 [0, 1] : ℚ)) := by
  have h00 : count_eq 0 [0, 1, 1] = 1 := by decide
  have h01 : count_eq 1 [0, 1, 1] = 2 := by decide
  have h10 : count_eq 0 [0, 1] = 1 := by decide
  have h11 : count_eq 1 [0, 1] = 1 := by decide
  refine ⟨by decide, by decide, ?_, ?_⟩
  · norm_num [estimatePower, pydiv, h00, h01, h10, h11]
  · norm_num [h00, h01, h10, h11]

/-- Claim C2 as amended: for any two outcome sequences with no zero
expected-category count, provided the observed group has length 5000 (the
sample size hardcoded by the notebook, equal to the observed group's length
in its run), the power estimate is the chi-square distribution map
(abstracted as `cdf`, one degree of freedom) evaluated at
`lambda = n * Σ (O_i - E_i)^2 / E_i`, where `n` is the length of the
observed group. -/
theorem claim_C2 (cdf : ℚ → ℚ) (tg cg : List ℕ)
    (h0 : count_eq 0 cg ≠ 0) (h1 : count_eq 1 cg ≠ 0)
    (hlen : tg.length = 5000) :
    estimatePower cdf tg cg =
      .ok (cdf ((tg.length : ℚ) *
        (((count_eq 0 tg : ℚ) - (count_eq 0 cg : ℚ)) ^ 2 / (count_eq 0 cg : ℚ) +
         ((count_eq 1 tg : ℚ) - (count_eq 1 cg : ℚ)) ^ 2 / (count_eq 1 cg : ℚ)))) := by
  have hcast : (tg.length : ℚ) = 5000 := by rw [hlen]; norm_num
  rw [estimatePower_ok cdf tg cg h0 h1, hcast, mul_comm]

/-- Claim C2 (amended), witnessed on an observed group of length 5000
against the expected group `[0,1]`. -/
theorem claim_C2_witness :
    estimatePower id (List.replicate 2500 0 ++ List.replicate 2500 1) [0, 1] =
      .ok (id (((List.replicate 2500 0 ++ List.replicate 2500 1 : List ℕ).length : ℚ) *
        (((count_eq 0 (List.replicate 2500 0 ++ List.replicate 2500 1) : ℚ) -
            (count_eq 0 [0, 1] : ℚ)) ^ 2 / (count_eq 0 [0, 1] : ℚ) +
         ((count_eq 1 (List.replicate 2500 0 ++ List.replicate 2500 1) : ℚ) -
            (count_eq 1 [0, 1] : ℚ)) ^ 2 / (count_eq 1 [0, 1] : ℚ)))) :=
  claim_C2 id (List.replicate 2500 0 ++ List.replicate 2500 1) [0, 1]
    (by decide) (by decide)
    (by rw [List.length_append, List.length_replicate, List.length_replicate])

/-- Claim C7: both the significance test and the power estimate fail (with
the division-by-zero error) whenever either expected-category count is zero,
producing no partial result. -/
theorem claim_C7 (sf cdf : ℚ → ℚ) (tg cg : List ℕ)
    (h : count_eq 0 cg = 0 ∨ count_eq 1 cg = 0) :
    isFailure (significance_test sf tg cg) = true ∧
    isFailure (estimatePower cdf tg cg) = true := by
  rcases h with h | h
  · exact ⟨by simp [significance_test, chisquare, chisq_stat, pydiv, h, isFailure],
           by simp [estimatePower, pydiv, h, isFailure]⟩
  · by_cases h0 : count_eq 0 cg = 0
    · exact ⟨by simp [significance_test, chisquare, chisq_stat, pydiv, h0, isFailure],
             by simp [estimatePower, pydiv, h0, isFailure]⟩
    · have hc0 : ((count_eq 0 cg : ℚ)) ≠ 0 := Nat.cast_ne_zero.2 h0
      exact ⟨by simp [significance_test, chisquare, chisq_stat, pydiv, h, hc0, isFailure],
             by simp [estimatePower, pydiv, h, hc0, isFailure]⟩

/-- Claim C7, witnessed with an expected group `[1,1]` that has no zeros. -/
theorem claim_C7_witness :
    isFailure (significance_test id [0] [1, 1]) = true ∧
    isFailure (estimatePower id [0] [1, 1]) = true :=
  claim_C7 id id [0] [1, 1] (Or.inl (by decide))

/-- Claim C8: testing a group against itself, when both its category counts
are nonzero, yields statistic exactly 0 and p-value exactly 1 (the
distribution map sends 0 to 1). -/
theorem claim_C8 (sf : ℚ → ℚ) (g : List ℕ)
    (h0 : count_eq 0 g ≠ 0) (h1 : count_eq 1 g ≠ 0) (hsf : sf 0 = 1) :
    significance_test sf g g = .ok (0, 1) := by
  rw [significance_test_ok sf g g h0 h1]
  simp [hsf]

/-- Claim C8, witnessed on the group `[0,1]`. -/
theorem claim_C8_witness :
    significance_test (fun _ => (1 : ℚ)) [0, 1] [0, 1] = .ok (0, 1) :=
  claim_C8 (fun _ => (1 : ℚ)) [0, 1] (by decide) (by decide) rfl
